import Mathlib

/-!
Shallow embedding of the pycargo bootstrap pipeline (src/main.rs).

The program is a strictly linear, side-effecting pipeline driven by CLI
arguments and an external environment (filesystem, subprocesses, HTTP,
environment variables, stdin).  We model the environment as a `World` of
oracle functions and every side-effecting step as a value of `Pipe α`:
an `Except String α` outcome paired with the ordered list of observable
side effects (`Event`s) the step attempted.  Terminal/spinner output and
ANSI color codes are elided (pure observers, never influencing control
flow), the quoting inside a few error-message strings is simplified, and
local writes (`fs::create_dir`, `fs::write`, `env::set_current_dir`) are
modelled as always succeeding, since no claim concerns their own failure.
The early raw-argv `--version` check is out of scope (CLI parsing).
Otherwise each definition mirrors the corresponding Rust function line by
line.
-/

/-- URL of the ignore-rules document fetched at bootstrap time. -/
def GITIGNORE_URL : String :=
  "https://raw.githubusercontent.com/github/gitignore/main/Python.gitignore"

/-- URL of the license document fetched at bootstrap time. -/
def LICENSE_URL : String := "https://www.apache.org/licenses/LICENSE-2.0.txt"

/-- URL of the GitHub repository-creation API endpoint. -/
def GH_API_URL : String := "https://api.github.com/user/repos"

/-- Modelled from the spec: the binary embeds three static template files
(templates/basic.txt, templates/advanced.txt, templates/datascience.txt) at
build time; those files are not among the given sources, so their contents
are represented here by fixed placeholder text.  Per the spec the Manifest
Template Store is a fixed mapping from template identifier to static
dependency-manifest text, and no claim depends on the exact text. -/
def BASIC_TEMPLATE : String := "basic-template-content"

/-- Modelled from the spec: placeholder for templates/advanced.txt (see
`BASIC_TEMPLATE`). -/
def ADVANCED_TEMPLATE : String := "advanced-template-content"

/-- Modelled from the spec: placeholder for templates/datascience.txt (see
`BASIC_TEMPLATE`). -/
def DATASCIENCE_TEMPLATE : String := "datascience-template-content"

/-- Parsed CLI arguments (the `Args` struct). -/
structure Args where
  name : String
  github_repo : Bool
  github_repo_name : Option String
  setup : String
  /-- the `private` flag (renamed: `private` is a Lean keyword) -/
  isPrivate : Bool
deriving DecidableEq

/-- Result of attempting to execute an external process: either the program
could not be spawned, or it ran to completion with an exit code, captured
stdout and captured stderr. -/
inductive ExecResult where
  | spawnFailure
  | exited (code : Nat) (stdout : String) (stderr : String)
deriving DecidableEq

/-- Result of an HTTP request: transport-level failure, or a response with a
status code and body text. -/
inductive HttpResult where
  | transportFailure
  | response (status : Nat) (body : String)
deriving DecidableEq

/-- An observable side effect attempted by the pipeline, in program order. -/
inductive Event where
  | createDir (name : String)
  | setCurrentDir (name : String)
  | runProc (cmd : String) (args : List String)
  | writeFile (name : String) (content : String)
  | httpGet (url : String)
  | apiPost (url : String) (repoName : String) (isPrivate : Bool)
  | readStdin
deriving DecidableEq

/-- The external environment the program runs against: filesystem lookup
(the result of testing metadata of a path), subprocess execution, one line
of stdin per prompted git-config key, HTTP GET responses, the GitHub API
response keyed by repo name and visibility, and environment variables.
Rust env lookup returns an error exactly when the variable is absent, so
`none` models absent and `some ""` models present-but-empty. -/
structure World where
  pathExists : String → Bool
  exec : String → List String → ExecResult
  stdinFor : String → String
  http : String → HttpResult
  api : String → Bool → HttpResult
  envVar : String → Option String

/-- Outcome of a pipeline fragment: the `Except` result together with the
ordered side effects attempted before returning. -/
structure Pipe (α : Type) where
  result : Except String α
  events : List Event

/-- Sequencing: on error the continuation never runs and contributes no
events (Rust error propagation); on success the event logs concatenate. -/
def Pipe.bind (x : Pipe α) (f : α → Pipe β) : Pipe β :=
  match x.result with
  | .error e => ⟨.error e, x.events⟩
  | .ok a => ⟨(f a).result, x.events ++ (f a).events⟩

/-- A step that succeeds with value `a` and no side effects. -/
def Pipe.pureP (a : α) : Pipe α := ⟨.ok a, []⟩

/-- A step that records one side effect and succeeds. -/
def emit (e : Event) : Pipe Unit := ⟨.ok (), [e]⟩

/-- A step that fails (Rust bail) without side effects. -/
def throwP (msg : String) : Pipe α := ⟨.error msg, []⟩

/-- Lift a pure `Result` (no side effects) into the pipeline. -/
def liftE (r : Except String α) : Pipe α := ⟨r, []⟩

/-- Whitespace test used for trimming (space, tab, newline, carriage
return), matching the characters relevant to git-config output. -/
def isWS (c : Char) : Bool := c = ' ' || c = '\t' || c = '\n' || c = '\r'

/-- Executable model of Rust str trim: strips leading and trailing
whitespace.  (Defined here rather than via the library trim so that it
reduces inside the kernel.) -/
def strTrim (s : String) : String :=
  ⟨((s.data.dropWhile isWS).reverse.dropWhile isWS).reverse⟩

/-- Argument join used in error messages (arguments joined by spaces). -/
def joinArgs (args : List String) : String := String.intercalate " " args

/-- Rust `run(cmd, args)`: spawns the process (always recorded as an
attempted invocation), fails with a spawn context if it cannot start, fails
with the captured stderr if it exits non-zero, succeeds on exit status
zero. -/
def run (w : World) (cmd : String) (args : List String) : Pipe Unit :=
  Pipe.bind (emit (.runProc cmd args)) fun _ =>
    match w.exec cmd args with
    | .spawnFailure =>
        throwP ("Failed to execute: " ++ cmd ++ " " ++ joinArgs args)
    | .exited code _ stderr =>
        if code = 0 then Pipe.pureP ()
        else
          throwP ("Command failed: " ++ cmd ++ " " ++ joinArgs args ++
            "\nError Output: " ++ stderr)

/-- Rust `git_command(args)`, defined as `run("git", args)`. -/
def git_command (w : World) (args : List String) : Pipe Unit :=
  run w "git" args

/-- Rust `check_git_config(key, prompt)`: reads `git config --get key`
(ignoring the exit status, only inspecting whether captured stdout is
empty); when stdout is empty it reads a line from stdin, trims it, and
persists it with `git config --global key value`. -/
def check_git_config (w : World) (key : String) : Pipe Unit :=
  Pipe.bind (emit (.runProc "git" ["config", "--get", key])) fun _ =>
    match w.exec "git" ["config", "--get", key] with
    | .spawnFailure => throwP "Failed to get git config"
    | .exited _ stdout _ =>
        if stdout = "" then
          Pipe.bind (emit .readStdin) fun _ =>
            git_command w ["config", "--global", key, strTrim (w.stdinFor key)]
        else Pipe.pureP ()

/-- Rust `check_uv_installation()`: probes `uv --version`; on any failure
falls back to a one-time `pip install uv`. -/
def check_uv_installation (w : World) : Pipe Unit :=
  let probe := run w "uv" ["--version"]
  match probe.result with
  | .error _ =>
      ⟨(run w "pip" ["install", "uv"]).result,
        probe.events ++ (run w "pip" ["install", "uv"]).events⟩
  | .ok _ => probe

/-- Rust `setup_environment()`: `uv init .` then `uv venv .venv`, the second
only after the first succeeds. -/
def setup_environment (w : World) : Pipe Unit :=
  Pipe.bind (run w "uv" ["init", "."]) fun _ =>
    run w "uv" ["venv", ".venv"]

/-- Rust `create_requirements_file(setup_type)`: resolves the template
(bailing on an unrecognized identifier before any write), writes
requirements.txt verbatim, and unless the template is `blank` runs
`uv add -r requirements.txt` followed by `uv sync`. -/
def create_requirements_file (w : World) (setup_type : String) : Pipe Unit :=
  Pipe.bind
    (if setup_type = "basic" then Pipe.pureP BASIC_TEMPLATE
     else if setup_type = "advanced" then Pipe.pureP ADVANCED_TEMPLATE
     else if setup_type = "data-science" then Pipe.pureP DATASCIENCE_TEMPLATE
     else if setup_type = "blank" then Pipe.pureP ""
     else throwP
       "Invalid setup type. Use basic, advanced, data-science, or blank")
    fun content =>
  Pipe.bind (emit (.writeFile "requirements.txt" content)) fun _ =>
    if setup_type ≠ "blank" then
      Pipe.bind (run w "uv" ["add", "-r", "requirements.txt"]) fun _ =>
        run w "uv" ["sync"]
    else Pipe.pureP ()

/-- Whether an HTTP status counts as success (reqwest is_success,
i.e. 200 through 299). -/
def isSuccessStatus (s : Nat) : Bool := 200 ≤ s && s ≤ 299

/-- Rust `download_and_write_file(url, filename)`: HTTP GET, fatal on
transport failure or a non-2xx status, otherwise writes the body
verbatim. -/
def download_and_write_file (w : World) (url filename : String) : Pipe Unit :=
  Pipe.bind (emit (.httpGet url)) fun _ =>
    match w.http url with
    | .transportFailure => throwP "Failed to download file"
    | .response status body =>
        if isSuccessStatus status then
          emit (.writeFile filename body)
        else throwP ("HTTP error: " ++ toString status)

/-- Rust `initialize_git_repo()`: init, autocrlf config, stage all,
commit. -/
def initialize_git_repo (w : World) : Pipe Unit :=
  Pipe.bind (git_command w ["init"]) fun _ =>
  Pipe.bind (git_command w ["config", "core.autocrlf", "true"]) fun _ =>
  Pipe.bind (git_command w ["add", "."]) fun _ =>
    git_command w ["commit", "-m", "Initial commit"]

/-- Rust `validate_env_vars()`: pure check that GITHUB_TOKEN is set at all
(an env lookup error is raised only for an absent variable); a
present-but-empty value passes. -/
def validate_env_vars (w : World) : Except String Unit :=
  match w.envVar "GITHUB_TOKEN" with
  | none => .error "GITHUB_TOKEN environment variable is not set"
  | some _ => .ok ()

/-- Rust `create_github_repo(name, private)`: reads the token (bailing only
when absent), POSTs to the repository-creation endpoint, fatal on transport
failure or any non-2xx response (surfacing the response body). -/
def create_github_repo (w : World) (name : String) (isPrivate : Bool) :
    Pipe Unit :=
  Pipe.bind
    (match w.envVar "GITHUB_TOKEN" with
     | none => throwP "GITHUB_TOKEN not set"
     | some t => Pipe.pureP t)
    fun _ =>
  Pipe.bind (emit (.apiPost GH_API_URL name isPrivate)) fun _ =>
    match w.api name isPrivate with
    | .transportFailure => throwP "Failed to create GitHub repository"
    | .response status body =>
        if isSuccessStatus status then Pipe.pureP ()
        else throwP ("GitHub API error: " ++ body)

/-- Rust `get_git_username()`: reads `git config --global user.name`, taking
the trimmed stdout without inspecting the exit status, so an unset key
yields the empty string rather than an error. -/
def get_git_username (w : World) : Pipe String :=
  Pipe.bind (emit (.runProc "git" ["config", "--global", "user.name"])) fun _ =>
    match w.exec "git" ["config", "--global", "user.name"] with
    | .spawnFailure =>
        throwP "Failed to retrieve GitHub username from git config"
    | .exited _ stdout _ => Pipe.pureP (strTrim stdout)

/-- Rust `setup_github_remote(repo_name)`: renames the branch to main,
derives the remote URL from the global user.name and the repo name,
registers it as origin, pushes, and returns the URL. -/
def setup_github_remote (w : World) (repo_name : String) : Pipe String :=
  Pipe.bind (git_command w ["branch", "-M", "main"]) fun _ =>
  Pipe.bind (get_git_username w) fun username =>
  let remote_url := "https://github.com/" ++ username ++ "/" ++ repo_name ++ ".git"
  Pipe.bind (git_command w ["remote", "add", "origin", remote_url]) fun _ =>
  Pipe.bind (git_command w ["push", "-u", "origin", "main"]) fun _ =>
    Pipe.pureP remote_url

/-- Rust `main`: the bootstrap pipeline, in source order: preflight
existence check, directory creation, the two identity checks, the uv
availability check, working-directory change, environment setup,
manifest/template step, the two downloads, local git init and commit, and
(only when requested) GitHub integration with the repo name defaulting to
the project name. -/
def mainRun (args : Args) (w : World) : Pipe Unit :=
  if w.pathExists args.name then
    throwP ("❌ Directory " ++ args.name ++ " already exists")
  else
    Pipe.bind (emit (.createDir args.name)) fun _ =>
    Pipe.bind (check_git_config w "user.name") fun _ =>
    Pipe.bind (check_git_config w "user.email") fun _ =>
    Pipe.bind (check_uv_installation w) fun _ =>
    Pipe.bind (emit (.setCurrentDir args.name)) fun _ =>
    Pipe.bind (setup_environment w) fun _ =>
    Pipe.bind (create_requirements_file w args.setup) fun _ =>
    Pipe.bind (download_and_write_file w GITIGNORE_URL ".gitignore") fun _ =>
    Pipe.bind (download_and_write_file w LICENSE_URL "LICENSE") fun _ =>
    Pipe.bind (initialize_git_repo w) fun _ =>
    if args.github_repo then
      let repo_name := args.github_repo_name.getD args.name
      Pipe.bind (liftE (validate_env_vars w)) fun _ =>
      Pipe.bind (create_github_repo w repo_name args.isPrivate) fun _ =>
      Pipe.bind (setup_github_remote w repo_name) fun _ =>
        Pipe.pureP ()
    else Pipe.pureP ()

/-- A fully cooperative process runner: every invocation exits with status
zero, stdout given by `so`, empty stderr. -/
def okExec (so : String → List String → String) :
    String → List String → ExecResult :=
  fun c a => ExecResult.exited 0 (so c a) ""

/-! ### Helper lemmas characterizing each step under a cooperative runner -/

/-- Under a cooperative runner, an identity check succeeds; it prompts and
persists exactly when the captured stdout of `git config --get` is empty. -/
theorem check_git_config_spec (w : World) (so : String → List String → String)
    (hexec : w.exec = okExec so) (key : String) :
    check_git_config w key =
      ⟨.ok (), if so "git" ["config", "--get", key] = "" then
          [.runProc "git" ["config", "--get", key], .readStdin,
           .runProc "git" ["config", "--global", key, strTrim (w.stdinFor key)]]
        else [.runProc "git" ["config", "--get", key]]⟩ := by
  by_cases h : so "git" ["config", "--get", key] = "" <;>
    simp [check_git_config, git_command, run, Pipe.bind, emit, Pipe.pureP,
      throwP, hexec, okExec, h]

/-- Under a cooperative runner, the uv availability probe succeeds on the
first attempt and never falls back to pip. -/
theorem check_uv_installation_spec (w : World)
    (so : String → List String → String) (hexec : w.exec = okExec so) :
    check_uv_installation w = ⟨.ok (), [.runProc "uv" ["--version"]]⟩ := by
  simp [check_uv_installation, run, Pipe.bind, emit, Pipe.pureP, throwP,
    hexec, okExec]

/-- Under a cooperative runner, environment setup runs exactly `uv init .`
then `uv venv .venv`. -/
theorem setup_environment_spec (w : World)
    (so : String → List String → String) (hexec : w.exec = okExec so) :
    setup_environment w =
      ⟨.ok (), [.runProc "uv" ["init", "."], .runProc "uv" ["venv", ".venv"]]⟩ := by
  simp [setup_environment, run, Pipe.bind, emit, Pipe.pureP, throwP,
    hexec, okExec]

/-- Under a cooperative runner, a recognized non-blank template writes its
static content and then runs the add and sync invocations. -/
theorem create_requirements_file_nonblank_spec (w : World)
    (so : String → List String → String) (hexec : w.exec = okExec so)
    (setup_type content : String)
    (h : (setup_type = "basic" ∧ content = BASIC_TEMPLATE) ∨
         (setup_type = "advanced" ∧ content = ADVANCED_TEMPLATE) ∨
         (setup_type = "data-science" ∧ content = DATASCIENCE_TEMPLATE)) :
    create_requirements_file w setup_type =
      ⟨.ok (), [.writeFile "requirements.txt" content,
        .runProc "uv" ["add", "-r", "requirements.txt"],
        .runProc "uv" ["sync"]]⟩ := by
  rcases h with ⟨h1, h2⟩ | ⟨h1, h2⟩ | ⟨h1, h2⟩ <;> subst h1 <;> subst h2 <;>
    simp [create_requirements_file, run, Pipe.bind, emit, Pipe.pureP, throwP,
      hexec, okExec]

/-- The blank template writes an empty requirements.txt and spawns no
process at all, in any environment. -/
theorem create_requirements_file_blank_spec (w : World) :
    create_requirements_file w "blank" =
      ⟨.ok (), [.writeFile "requirements.txt" ""]⟩ := rfl

/-- An unrecognized template identifier fails before writing anything and
before spawning anything. -/
theorem create_requirements_file_invalid_spec (w : World) (setup_type : String)
    (h1 : setup_type ≠ "basic") (h2 : setup_type ≠ "advanced")
    (h3 : setup_type ≠ "data-science") (h4 : setup_type ≠ "blank") :
    create_requirements_file w setup_type =
      ⟨.error "Invalid setup type. Use basic, advanced, data-science, or blank",
        []⟩ := by
  simp [create_requirements_file, Pipe.bind, emit, Pipe.pureP, throwP,
    h1, h2, h3, h4]

/-- A download with a 2xx response fetches and then writes the body. -/
theorem download_ok_spec (w : World) (url filename : String) (s : Nat)
    (b : String) (hhttp : w.http url = .response s b)
    (hs : isSuccessStatus s = true) :
    download_and_write_file w url filename =
      ⟨.ok (), [.httpGet url, .writeFile filename b]⟩ := by
  simp [download_and_write_file, Pipe.bind, emit, Pipe.pureP, throwP, hhttp, hs]

/-- A download with a non-2xx response fails with the HTTP error and writes
nothing. -/
theorem download_http_error_spec (w : World) (url filename : String) (s : Nat)
    (b : String) (hhttp : w.http url = .response s b)
    (hs : isSuccessStatus s = false) :
    download_and_write_file w url filename =
      ⟨.error ("HTTP error: " ++ toString s), [.httpGet url]⟩ := by
  simp [download_and_write_file, Pipe.bind, emit, Pipe.pureP, throwP, hhttp, hs]

/-- Under a cooperative runner, repository initialization runs exactly the
four git invocations in order. -/
theorem initialize_git_repo_spec (w : World)
    (so : String → List String → String) (hexec : w.exec = okExec so) :
    initialize_git_repo w =
      ⟨.ok (), [.runProc "git" ["init"],
        .runProc "git" ["config", "core.autocrlf", "true"],
        .runProc "git" ["add", "."],
        .runProc "git" ["commit", "-m", "Initial commit"]]⟩ := by
  simp [initialize_git_repo, git_command, run, Pipe.bind, emit, Pipe.pureP,
    throwP, hexec, okExec]

/-- With a token present and a 2xx API response, remote creation performs
exactly the one authenticated POST. -/
theorem create_github_repo_spec (w : World) (name : String) (ipriv : Bool)
    (t : String) (s : Nat) (b : String)
    (henv : w.envVar "GITHUB_TOKEN" = some t)
    (hapi : w.api name ipriv = .response s b)
    (hs : isSuccessStatus s = true) :
    create_github_repo w name ipriv =
      ⟨.ok (), [.apiPost GH_API_URL name ipriv]⟩ := by
  simp [create_github_repo, Pipe.bind, emit, Pipe.pureP, throwP, henv, hapi, hs]

/-- Under a cooperative runner, remote setup renames the branch, reads the
global user name, registers origin at the derived URL, and pushes. -/
theorem setup_github_remote_spec (w : World)
    (so : String → List String → String) (hexec : w.exec = okExec so)
    (repo : String) :
    setup_github_remote w repo =
      ⟨.ok ("https://github.com/" ++ strTrim (so "git" ["config", "--global", "user.name"])
          ++ "/" ++ repo ++ ".git"),
        [.runProc "git" ["branch", "-M", "main"],
         .runProc "git" ["config", "--global", "user.name"],
         .runProc "git" ["remote", "add", "origin",
           "https://github.com/" ++ strTrim (so "git" ["config", "--global", "user.name"])
             ++ "/" ++ repo ++ ".git"],
         .runProc "git" ["push", "-u", "origin", "main"]]⟩ := by
  simp [setup_github_remote, get_git_username, git_command, run, Pipe.bind,
    emit, Pipe.pureP, throwP, hexec, okExec]

/-- An identity check always begins by invoking `git config --get key`,
whatever the environment. -/
theorem check_git_config_first_event (w : World) (key : String) :
    ∃ t, (check_git_config w key).events =
      .runProc "git" ["config", "--get", key] :: t := by
  unfold check_git_config
  cases h : w.exec "git" ["config", "--get", key] with
  | spawnFailure => exact ⟨[], by simp [Pipe.bind, emit, throwP]⟩
  | exited code stdout stderr =>
      by_cases h2 : stdout = "" <;>
        simp [Pipe.bind, emit, Pipe.pureP, throwP, git_command, run, h2]

/-! ### Concrete environments used by closed theorems and witnesses -/

/-- A fully cooperative concrete environment: no pre-existing paths, every
process exits 0 with stdout "x", stdin yields "Jane", every download
succeeds with body "B", the API answers 201, and no environment variable is
set. -/
def wAllOk : World :=
  { pathExists := fun _ => false
    exec := okExec fun _ _ => "x"
    stdinFor := fun _ => "Jane"
    http := fun _ => .response 200 "B"
    api := fun _ _ => .response 201 "ok"
    envVar := fun _ => none }

/-- Like `wAllOk` but with GITHUB_TOKEN set to a non-empty token. -/
def wAllTok : World := { wAllOk with envVar := fun _ => some "tok" }

/-- Like `wAllOk` but with GITHUB_TOKEN present and empty. -/
def wEmptyToken : World := { wAllOk with envVar := fun _ => some "" }

/-- Like `wAllOk` but the target path already exists. -/
def wExists : World := { wAllOk with pathExists := fun _ => true }

/-- Like `wAllTok` but the ignore-rules download answers HTTP 404. -/
def w404 : World :=
  { wAllTok with http := fun u =>
      if u = GITIGNORE_URL then .response 404 "nf" else .response 200 "B" }

/-- An environment whose runner can never spawn any program. -/
def wSpawnFail : World := { wAllOk with exec := fun _ _ => .spawnFailure }

/-- An environment whose runner exits 1 with stderr "boom" on every
program. -/
def wFailExit : World := { wAllOk with exec := fun _ _ => .exited 1 "" "boom" }

/-- Like `wAllTok` but `git config --global user.name` exits with status 1
and empty stdout — the behavior of querying an unset key — while every
other command exits 0. -/
def wUnsetName : World :=
  { wAllTok with exec := fun c a =>
      if c = "git" ∧ a = ["config", "--global", "user.name"] then
        ExecResult.exited 1 "" ""
      else okExec (fun _ _ => "x") c a }

/-! ### Claim theorems -/

/-- C1: the spec requires that, when remote-hosting integration is requested
and GITHUB_TOKEN is absent, the run fail during Configuration Resolution
before DirectoryCreation and before any filesystem mutation.  The code
instead validates the token only inside the GitHub-integration branch, after
the directory is created, the environment is set up, the downloads are
written and the initial commit is made: at a concrete failing input the run
ends with the missing-token error, yet the directory-creation, file-write
and commit side effects have all occurred. -/
theorem missing_token_fails_after_directory_creation :
    (mainRun ⟨"demo", true, none, "basic", false⟩ wAllOk).result =
      .error "GITHUB_TOKEN environment variable is not set" ∧
    Event.createDir "demo" ∈
      (mainRun ⟨"demo", true, none, "basic", false⟩ wAllOk).events ∧
    Event.writeFile "LICENSE" "B" ∈
      (mainRun ⟨"demo", true, none, "basic", false⟩ wAllOk).events ∧
    Event.runProc "git" ["commit", "-m", "Initial commit"] ∈
      (mainRun ⟨"demo", true, none, "basic", false⟩ wAllOk).events := by
  refine ⟨rfl, ?_, ?_, ?_⟩ <;> decide

/-- C2 counterexample: with the unrecognized template "bogus" in an
otherwise cooperative environment, the run does fail, but only after the
project directory was created and the uv environment-setup subprocesses
ran — refuting that the directory is never created and that no side effect
occurs. -/
theorem invalid_setup_after_side_effects_cex :
    (mainRun ⟨"demo", false, none, "bogus", false⟩ wAllOk).result =
      .error "Invalid setup type. Use basic, advanced, data-science, or blank" ∧
    Event.createDir "demo" ∈
      (mainRun ⟨"demo", false, none, "bogus", false⟩ wAllOk).events ∧
    Event.runProc "uv" ["init", "."] ∈
      (mainRun ⟨"demo", false, none, "bogus", false⟩ wAllOk).events := by
  refine ⟨rfl, ?_, ?_⟩ <;> decide

/-- C2 amended: for every setup value outside the four recognized
identifiers, in a cooperative environment with a fresh project name, the run
fails with the invalid-setup error at the manifest step — after the project
directory was created and uv subprocesses ran, but before any file is
written, before any download, and before git initialization. -/
theorem invalid_setup_fails_at_manifest_write (args : Args) (w : World)
    (so : String → List String → String)
    (hexec : w.exec = okExec so)
    (hpath : w.pathExists args.name = false)
    (h1 : args.setup ≠ "basic") (h2 : args.setup ≠ "advanced")
    (h3 : args.setup ≠ "data-science") (h4 : args.setup ≠ "blank") :
    (mainRun args w).result =
      .error "Invalid setup type. Use basic, advanced, data-science, or blank" ∧
    Event.createDir args.name ∈ (mainRun args w).events ∧
    Event.runProc "uv" ["init", "."] ∈ (mainRun args w).events ∧
    (∀ f c, Event.writeFile f c ∉ (mainRun args w).events) ∧
    (∀ u, Event.httpGet u ∉ (mainRun args w).events) ∧
    Event.runProc "git" ["init"] ∉ (mainRun args w).events := by
  rw [mainRun, hpath]
  rw [check_git_config_spec w so hexec "user.name",
    check_git_config_spec w so hexec "user.email",
    check_uv_installation_spec w so hexec,
    setup_environment_spec w so hexec,
    create_requirements_file_invalid_spec w args.setup h1 h2 h3 h4]
  simp only [Bool.false_eq_true, if_false]
  by_cases ha : so "git" ["config", "--get", "user.name"] = "" <;>
    by_cases hb : so "git" ["config", "--get", "user.email"] = "" <;>
    simp [Pipe.bind, emit, Pipe.pureP, throwP, ha, hb]

/-- C2 amended, witness at a concrete input. -/
theorem invalid_setup_fails_at_manifest_write_witness :
    (mainRun ⟨"demo", false, none, "bogus", false⟩ wAllOk).result =
      .error "Invalid setup type. Use basic, advanced, data-science, or blank" ∧
    Event.createDir "demo" ∈
      (mainRun ⟨"demo", false, none, "bogus", false⟩ wAllOk).events ∧
    Event.runProc "uv" ["init", "."] ∈
      (mainRun ⟨"demo", false, none, "bogus", false⟩ wAllOk).events ∧
    (∀ f c, Event.writeFile f c ∉
      (mainRun ⟨"demo", false, none, "bogus", false⟩ wAllOk).events) ∧
    (∀ u, Event.httpGet u ∉
      (mainRun ⟨"demo", false, none, "bogus", false⟩ wAllOk).events) ∧
    Event.runProc "git" ["init"] ∉
      (mainRun ⟨"demo", false, none, "bogus", false⟩ wAllOk).events :=
  invalid_setup_fails_at_manifest_write ⟨"demo", false, none, "bogus", false⟩
    wAllOk (fun _ _ => "x") rfl rfl (by decide) (by decide) (by decide)
    (by decide)

/-- C3 counterexample: in a concrete cooperative run the very first side
effect is the creation of the project directory, and the first identity
check (reading `git config --get user.name`) happens only afterwards — so
IdentityCheck and DependencyAvailabilityCheck do not complete before
DirectoryCreation. -/
theorem directory_created_before_identity_check_cex :
    ((mainRun ⟨"demo", false, none, "basic", false⟩ wAllOk).events.head? =
      some (.createDir "demo")) ∧
    ((mainRun ⟨"demo", false, none, "basic", false⟩ wAllOk).events[1]? =
      some (.runProc "git" ["config", "--get", "user.name"])) := by
  exact ⟨rfl, rfl⟩

/-- C3 amended: for every run that passes the preflight existence check,
DirectoryCreation is the first side effect, immediately followed by the
start of the IdentityCheck for user.name (so identity and dependency checks
run after the directory is created, not before). -/
theorem directory_creation_is_first_side_effect (args : Args) (w : World)
    (hpath : w.pathExists args.name = false) :
    (mainRun args w).events.take 2 =
      [.createDir args.name, .runProc "git" ["config", "--get", "user.name"]] := by
  obtain ⟨t, ht⟩ := check_git_config_first_event w "user.name"
  rw [mainRun, hpath]
  simp only [Bool.false_eq_true, if_false]
  show (Pipe.bind (emit (.createDir args.name)) _).events.take 2 = _
  rw [Pipe.bind]
  simp only [emit]
  show (Event.createDir args.name ::
    (Pipe.bind (check_git_config w "user.name") _).events).take 2 = _
  rw [Pipe.bind]
  cases hr : (check_git_config w "user.name").result <;> simp [ht]

/-- C3 amended, witness at a concrete input. -/
theorem directory_creation_is_first_side_effect_witness :
    (mainRun ⟨"demo", false, none, "basic", false⟩ wAllOk).events.take 2 =
      [.createDir "demo", .runProc "git" ["config", "--get", "user.name"]] :=
  directory_creation_is_first_side_effect
    ⟨"demo", false, none, "basic", false⟩ wAllOk rfl

/-- C4: when the project name already exists as a filesystem entry, the run
fails with the directory-exists error and performs no side effect at all:
no directory creation, no subprocess, no write, no download, nothing. -/
theorem existing_directory_preflight_no_side_effects (args : Args) (w : World)
    (h : w.pathExists args.name = true) :
    (mainRun args w).result =
      .error ("❌ Directory " ++ args.name ++ " already exists") ∧
    (mainRun args w).events = [] := by
  rw [mainRun, h]; simp [throwP]

/-- C4, witness at a concrete input. -/
theorem existing_directory_preflight_no_side_effects_witness :
    (mainRun ⟨"demo", false, none, "basic", false⟩ wExists).result =
      .error ("❌ Directory " ++ "demo" ++ " already exists") ∧
    (mainRun ⟨"demo", false, none, "basic", false⟩ wExists).events = [] :=
  existing_directory_preflight_no_side_effects
    ⟨"demo", false, none, "basic", false⟩ wExists rfl

/-- C5: each recognized template writes requirements.txt with exactly its
static template content; the three non-blank templates then run both
install invocations (`uv add -r requirements.txt` then `uv sync`), while
blank writes the file empty and spawns no install process at all, in any
environment. -/
theorem requirements_file_template_contents (w : World)
    (so : String → List String → String) (hexec : w.exec = okExec so) :
    create_requirements_file w "basic" =
      ⟨.ok (), [.writeFile "requirements.txt" BASIC_TEMPLATE,
        .runProc "uv" ["add", "-r", "requirements.txt"],
        .runProc "uv" ["sync"]]⟩ ∧
    create_requirements_file w "advanced" =
      ⟨.ok (), [.writeFile "requirements.txt" ADVANCED_TEMPLATE,
        .runProc "uv" ["add", "-r", "requirements.txt"],
        .runProc "uv" ["sync"]]⟩ ∧
    create_requirements_file w "data-science" =
      ⟨.ok (), [.writeFile "requirements.txt" DATASCIENCE_TEMPLATE,
        .runProc "uv" ["add", "-r", "requirements.txt"],
        .runProc "uv" ["sync"]]⟩ ∧
    (∀ w2 : World, create_requirements_file w2 "blank" =
      ⟨.ok (), [Event.writeFile "requirements.txt" ""]⟩) :=
  ⟨create_requirements_file_nonblank_spec w so hexec "basic" BASIC_TEMPLATE
      (Or.inl ⟨rfl, rfl⟩),
   create_requirements_file_nonblank_spec w so hexec "advanced"
      ADVANCED_TEMPLATE (Or.inr (Or.inl ⟨rfl, rfl⟩)),
   create_requirements_file_nonblank_spec w so hexec "data-science"
      DATASCIENCE_TEMPLATE (Or.inr (Or.inr ⟨rfl, rfl⟩)),
   fun _ => rfl⟩

/-- C5, witness at a concrete environment. -/
theorem requirements_file_template_contents_witness :
    create_requirements_file wAllOk "basic" =
      ⟨.ok (), [.writeFile "requirements.txt" BASIC_TEMPLATE,
        .runProc "uv" ["add", "-r", "requirements.txt"],
        .runProc "uv" ["sync"]]⟩ ∧
    create_requirements_file wAllOk "advanced" =
      ⟨.ok (), [.writeFile "requirements.txt" ADVANCED_TEMPLATE,
        .runProc "uv" ["add", "-r", "requirements.txt"],
        .runProc "uv" ["sync"]]⟩ ∧
    create_requirements_file wAllOk "data-science" =
      ⟨.ok (), [.writeFile "requirements.txt" DATASCIENCE_TEMPLATE,
        .runProc "uv" ["add", "-r", "requirements.txt"],
        .runProc "uv" ["sync"]]⟩ ∧
    (∀ w2 : World, create_requirements_file w2 "blank" =
      ⟨.ok (), [Event.writeFile "requirements.txt" ""]⟩) :=
  requirements_file_template_contents wAllOk (fun _ _ => "x") rfl

/-- C6: when the ignore-rules fetch answers a non-2xx status in an otherwise
cooperative run, the pipeline halts with the HTTP error at that step: the
LICENSE file is never written, the license fetch is never attempted, and
none of the RepositoryInit git invocations (init, commit) ever run. -/
theorem gitignore_fetch_failure_halts_pipeline (args : Args) (w : World)
    (so : String → List String → String) (s : Nat) (b : String)
    (hexec : w.exec = okExec so)
    (hpath : w.pathExists args.name = false)
    (hsetup : args.setup = "basic" ∨ args.setup = "advanced" ∨
      args.setup = "data-science" ∨ args.setup = "blank")
    (hhttp : w.http GITIGNORE_URL = .response s b)
    (hs : isSuccessStatus s = false) :
    (mainRun args w).result = .error ("HTTP error: " ++ toString s) ∧
    (∀ c, Event.writeFile "LICENSE" c ∉ (mainRun args w).events) ∧
    Event.httpGet LICENSE_URL ∉ (mainRun args w).events ∧
    Event.runProc "git" ["init"] ∉ (mainRun args w).events ∧
    Event.runProc "git" ["commit", "-m", "Initial commit"] ∉
      (mainRun args w).events := by
  have hcrf : create_requirements_file w args.setup =
      ⟨.ok (), (if args.setup = "blank" then
        [Event.writeFile "requirements.txt" ""] else
        [Event.writeFile "requirements.txt"
            (if args.setup = "basic" then BASIC_TEMPLATE
             else if args.setup = "advanced" then ADVANCED_TEMPLATE
             else DATASCIENCE_TEMPLATE),
          Event.runProc "uv" ["add", "-r", "requirements.txt"],
          Event.runProc "uv" ["sync"]])⟩ := by
    rcases hsetup with h | h | h | h <;> rw [h]
    · rw [create_requirements_file_nonblank_spec w so hexec "basic"
        BASIC_TEMPLATE (Or.inl ⟨rfl, rfl⟩)]; simp
    · rw [create_requirements_file_nonblank_spec w so hexec "advanced"
        ADVANCED_TEMPLATE (Or.inr (Or.inl ⟨rfl, rfl⟩))]; simp
    · rw [create_requirements_file_nonblank_spec w so hexec "data-science"
        DATASCIENCE_TEMPLATE (Or.inr (Or.inr ⟨rfl, rfl⟩))]; simp
    · rw [create_requirements_file_blank_spec]; simp
  rw [mainRun, hpath]
  rw [check_git_config_spec w so hexec "user.name",
    check_git_config_spec w so hexec "user.email",
    check_uv_installation_spec w so hexec,
    setup_environment_spec w so hexec, hcrf,
    download_http_error_spec w GITIGNORE_URL ".gitignore" s b hhttp hs]
  simp only [Bool.false_eq_true, if_false]
  by_cases h1 : so "git" ["config", "--get", "user.name"] = "" <;>
    by_cases h2 : so "git" ["config", "--get", "user.email"] = "" <;>
    by_cases h3 : args.setup = "blank" <;>
    simp [Pipe.bind, emit, Pipe.pureP, throwP, h1, h2, h3, GITIGNORE_URL,
      LICENSE_URL]

/-- C6, witness at a concrete input (HTTP 404 on the ignore-rules URL). -/
theorem gitignore_fetch_failure_halts_pipeline_witness :
    (mainRun ⟨"demo", false, none, "basic", false⟩ w404).result =
      .error ("HTTP error: " ++ toString 404) ∧
    (∀ c, Event.writeFile "LICENSE" c ∉
      (mainRun ⟨"demo", false, none, "basic", false⟩ w404).events) ∧
    Event.httpGet LICENSE_URL ∉
      (mainRun ⟨"demo", false, none, "basic", false⟩ w404).events ∧
    Event.runProc "git" ["init"] ∉
      (mainRun ⟨"demo", false, none, "basic", false⟩ w404).events ∧
    Event.runProc "git" ["commit", "-m", "Initial commit"] ∉
      (mainRun ⟨"demo", false, none, "basic", false⟩ w404).events :=
  gitignore_fetch_failure_halts_pipeline ⟨"demo", false, none, "basic", false⟩
    w404 (fun _ _ => "x") 404 "nf" rfl rfl (Or.inl rfl) rfl (by decide)

/-- C7 counterexample: with GITHUB_TOKEN present but equal to the empty
string, credential validation does not fail: it returns Ok, and a full
GitHub-integration run proceeds all the way to the authenticated API call
instead of stopping with the missing-credential error. -/
theorem empty_token_passes_validation_cex :
    wEmptyToken.envVar "GITHUB_TOKEN" = some "" ∧
    validate_env_vars wEmptyToken = .ok () ∧
    Event.apiPost GH_API_URL "demo" false ∈
      (mainRun ⟨"demo", true, none, "basic", false⟩ wEmptyToken).events := by
  refine ⟨rfl, rfl, ?_⟩; decide

/-- C7 amended: credential validation checks only that GITHUB_TOKEN is
present: any set value — including the empty string — passes, and the
missing-credential error is produced exactly when the variable is absent. -/
theorem validate_env_vars_presence_only (w : World) :
    (∀ s, w.envVar "GITHUB_TOKEN" = some s → validate_env_vars w = .ok ()) ∧
    (w.envVar "GITHUB_TOKEN" = none →
      validate_env_vars w =
        .error "GITHUB_TOKEN environment variable is not set") := by
  constructor
  · intro s h; simp [validate_env_vars, h]
  · intro h; simp [validate_env_vars, h]

/-- C7 amended, witness: the empty-string token passes and the absent token
fails. -/
theorem validate_env_vars_presence_only_witness :
    validate_env_vars wEmptyToken = .ok () ∧
    validate_env_vars wAllOk =
      .error "GITHUB_TOKEN environment variable is not set" :=
  ⟨(validate_env_vars_presence_only wEmptyToken).1 "" rfl,
   (validate_env_vars_presence_only wAllOk).2 rfl⟩

/-- C8: in a fully successful GitHub-integration run with no custom repo
name, the remote repository name equals the project name (it is the name
POSTed to the API), origin is registered at the URL built from the trimmed
global user.name and that repo name, and the initial commit is pushed. -/
theorem github_remote_defaults_and_push (args : Args) (w : World)
    (so : String → List String → String) (tok b1 b2 ab : String)
    (s1 s2 s3 : Nat)
    (hexec : w.exec = okExec so)
    (hpath : w.pathExists args.name = false)
    (hsetup : args.setup = "advanced")
    (hgr : args.github_repo = true)
    (hnone : args.github_repo_name = none)
    (hhttp1 : w.http GITIGNORE_URL = .response s1 b1)
    (hs1 : isSuccessStatus s1 = true)
    (hhttp2 : w.http LICENSE_URL = .response s2 b2)
    (hs2 : isSuccessStatus s2 = true)
    (henv : w.envVar "GITHUB_TOKEN" = some tok)
    (hapi : w.api args.name args.isPrivate = .response s3 ab)
    (hs3 : isSuccessStatus s3 = true) :
    (mainRun args w).result = .ok () ∧
    Event.apiPost GH_API_URL args.name args.isPrivate ∈ (mainRun args w).events ∧
    Event.runProc "git" ["remote", "add", "origin",
        "https://github.com/" ++ strTrim (so "git" ["config", "--global", "user.name"])
          ++ "/" ++ args.name ++ ".git"] ∈ (mainRun args w).events ∧
    Event.runProc "git" ["push", "-u", "origin", "main"] ∈
      (mainRun args w).events := by
  rw [mainRun, hpath]
  rw [check_git_config_spec w so hexec "user.name",
    check_git_config_spec w so hexec "user.email",
    check_uv_installation_spec w so hexec,
    setup_environment_spec w so hexec, hsetup,
    create_requirements_file_nonblank_spec w so hexec "advanced"
      ADVANCED_TEMPLATE (Or.inr (Or.inl ⟨rfl, rfl⟩)),
    download_ok_spec w GITIGNORE_URL ".gitignore" s1 b1 hhttp1 hs1,
    download_ok_spec w LICENSE_URL "LICENSE" s2 b2 hhttp2 hs2,
    initialize_git_repo_spec w so hexec, hgr, hnone]
  simp only [Bool.false_eq_true, if_false, if_true, Option.getD_none]
  rw [validate_env_vars]
  rw [henv]
  rw [create_github_repo_spec w args.name args.isPrivate tok s3 ab henv hapi hs3,
    setup_github_remote_spec w so hexec args.name]
  by_cases ha : so "git" ["config", "--get", "user.name"] = "" <;>
    by_cases hb : so "git" ["config", "--get", "user.email"] = "" <;>
    simp [Pipe.bind, emit, Pipe.pureP, throwP, liftE, ha, hb]

/-- C8, witness at a concrete fully successful integration run. -/
theorem github_remote_defaults_and_push_witness :
    (mainRun ⟨"demo", true, none, "advanced", false⟩ wAllTok).result = .ok () ∧
    Event.apiPost GH_API_URL "demo" false ∈
      (mainRun ⟨"demo", true, none, "advanced", false⟩ wAllTok).events ∧
    Event.runProc "git" ["remote", "add", "origin",
        "https://github.com/" ++ strTrim "x" ++ "/" ++ "demo" ++ ".git"] ∈
      (mainRun ⟨"demo", true, none, "advanced", false⟩ wAllTok).events ∧
    Event.runProc "git" ["push", "-u", "origin", "main"] ∈
      (mainRun ⟨"demo", true, none, "advanced", false⟩ wAllTok).events :=
  github_remote_defaults_and_push ⟨"demo", true, none, "advanced", false⟩
    wAllTok (fun _ _ => "x") "tok" "B" "B" "ok" 200 200 201
    rfl rfl rfl rfl rfl rfl (by decide) rfl (by decide) rfl rfl (by decide)

/-- C9: the process runner fails with the spawn context when the program
cannot be started, fails with an error carrying the captured stderr when the
process exits non-zero, and succeeds exactly when the exit status is
zero. -/
theorem run_process_contract (w : World) (cmd : String) (args : List String) :
    (w.exec cmd args = .spawnFailure →
      (run w cmd args).result =
        .error ("Failed to execute: " ++ cmd ++ " " ++ joinArgs args)) ∧
    (∀ code stdout stderr, w.exec cmd args = .exited code stdout stderr →
      (((run w cmd args).result = .ok ()) ↔ code = 0) ∧
      (code ≠ 0 → (run w cmd args).result =
        .error ("Command failed: " ++ cmd ++ " " ++ joinArgs args ++
          "\nError Output: " ++ stderr))) := by
  constructor
  · intro h
    simp [run, Pipe.bind, emit, Pipe.pureP, throwP, h]
  · intro code stdout stderr h
    constructor
    · constructor
      · intro hok
        by_contra hne
        simp [run, Pipe.bind, emit, Pipe.pureP, throwP, h, hne] at hok
      · intro hz
        simp [run, Pipe.bind, emit, Pipe.pureP, throwP, h, hz]
    · intro hne
      simp [run, Pipe.bind, emit, Pipe.pureP, throwP, h, hne]

/-- C9, witness: a spawn failure, a non-zero exit carrying stderr, and the
success case, each at a concrete input. -/
theorem run_process_contract_witness :
    ((run wSpawnFail "uv" ["--version"]).result =
      .error ("Failed to execute: " ++ "uv" ++ " " ++ joinArgs ["--version"])) ∧
    (((run wFailExit "uv" ["sync"]).result = .ok ()) ↔ (1 : Nat) = 0) ∧
    ((run wFailExit "uv" ["sync"]).result =
      .error ("Command failed: " ++ "uv" ++ " " ++ joinArgs ["sync"] ++
        "\nError Output: " ++ "boom")) ∧
    (((run wAllOk "uv" ["sync"]).result = .ok ()) ↔ (0 : Nat) = 0) :=
  ⟨(run_process_contract wSpawnFail "uv" ["--version"]).1 rfl,
   ((run_process_contract wFailExit "uv" ["sync"]).2 1 "" "boom" rfl).1,
   ((run_process_contract wFailExit "uv" ["sync"]).2 1 "" "boom" rfl).2
     (by decide),
   ((run_process_contract wAllOk "uv" ["sync"]).2 0 "x" "" rfl).1⟩

/-- C10: the remote-URL derivation never inspects the exit status of
`git config --global user.name` (the exit code below is universally
quantified, covering the non-zero exit produced by an unset key) and never
requires a non-empty result: whenever that query captures empty stdout,
reading the username succeeds with the empty string, and remote setup —
with the surrounding git commands succeeding — succeeds while registering
and pushing to the owner-less URL https://github.com//repo.git. -/
theorem empty_global_username_gives_empty_owner_url (w : World) (repo : String)
    (c : Nat) (e o1 e1 o3 e3 o4 e4 : String)
    (husr : w.exec "git" ["config", "--global", "user.name"] = .exited c "" e)
    (h1 : w.exec "git" ["branch", "-M", "main"] = .exited 0 o1 e1)
    (h3 : w.exec "git" ["remote", "add", "origin",
            "https://github.com//" ++ repo ++ ".git"] = .exited 0 o3 e3)
    (h4 : w.exec "git" ["push", "-u", "origin", "main"] = .exited 0 o4 e4) :
    (get_git_username w).result = .ok "" ∧
    (setup_github_remote w repo).result =
      .ok ("https://github.com//" ++ repo ++ ".git") ∧
    Event.runProc "git" ["remote", "add", "origin",
      "https://github.com//" ++ repo ++ ".git"] ∈
      (setup_github_remote w repo).events := by
  have htrim : strTrim "" = "" := rfl
  have h0 : ("https://github.com/" ++ ("" : String) ++ "/") =
      "https://github.com//" := by decide
  have h0b : ("https://github.com/" ++ "/") = "https://github.com//" := by
    decide
  have hgu : get_git_username w = ⟨.ok "", [.runProc "git"
      ["config", "--global", "user.name"]]⟩ := by
    simp [get_git_username, Pipe.bind, emit, Pipe.pureP, husr, htrim]
  have hsr : setup_github_remote w repo =
      ⟨.ok ("https://github.com//" ++ repo ++ ".git"),
        [.runProc "git" ["branch", "-M", "main"],
         .runProc "git" ["config", "--global", "user.name"],
         .runProc "git" ["remote", "add", "origin",
           "https://github.com//" ++ repo ++ ".git"],
         .runProc "git" ["push", "-u", "origin", "main"]]⟩ := by
    rw [setup_github_remote]
    rw [hgu]
    simp [Pipe.bind, emit, Pipe.pureP, throwP, git_command, run,
      h1, h3, h4, h0, h0b]
  rw [hgu, hsr]
  refine ⟨rfl, rfl, ?_⟩
  simp

/-- C10, witness at a concrete environment where the global user.name query
exits 1 with empty stdout (an unset key) and the other git commands exit
0. -/
theorem empty_global_username_gives_empty_owner_url_witness :
    (get_git_username wUnsetName).result = .ok "" ∧
    (setup_github_remote wUnsetName "demo").result =
      .ok ("https://github.com//" ++ "demo" ++ ".git") ∧
    Event.runProc "git" ["remote", "add", "origin",
      "https://github.com//" ++ "demo" ++ ".git"] ∈
      (setup_github_remote wUnsetName "demo").events :=
  empty_global_username_gives_empty_owner_url wUnsetName "demo"
    1 "" "x" "" "x" "" "x" "" (by decide) (by decide) (by decide) (by decide)
